import Mathlib

/-!
Verification of the agenta CLI backend client
(agenta-cli/agenta/client/client.py) against its specification.

The module is a thin HTTP client: each function builds a URL, performs one
blocking call, branches on the status code, and either raises or returns
parsed JSON.  We embed each function as a pure Lean function from the
operation arguments and the outcome of the underlying network call (a
transport failure or a `Response` carrying a status code and a body) to an
`Except PyError result`.  Python exceptions become `PyError` values.
-/

/-- JSON values, as produced by `response.json()`.  Numbers are modelled as
integers (no claim touches fractional values). -/
inductive Json where
  | null
  | bool (b : Bool)
  | num (n : Int)
  | str (s : String)
  | arr (elems : List Json)
  | obj (fields : List (String × Json))

/-- Lookup of a key in a JSON object (Python `dict` access / `.get`).
Returns `none` when the value is not an object or the key is absent. -/
def Json.lookup (j : Json) (key : String) : Option Json :=
  match j with
  | .obj fields => lookupFields fields key
  | _ => none
where
  lookupFields : List (String × Json) → String → Option Json
    | [], _ => none
    | (k, v) :: rest, key => if k = key then some v else lookupFields rest key

mutual

/-- Python `repr` of a value obtained from `json.loads`: dicts print as
`\x7b'k': v\x7d`, strings with quotes, `True`/`False`/`None` for the atoms.
(Escaping of special characters inside strings is not modelled; the claims
only use plain texts.) -/
def pyRepr : Json → String
  | .null => "None"
  | .bool true => "True"
  | .bool false => "False"
  | .num n => toString n
  | .str s => "\x27" ++ s ++ "\x27"
  | .arr elems => "[" ++ pyReprElems elems ++ "]"
  | .obj fields => "\x7b" ++ pyReprFields fields ++ "\x7d"

def pyReprElems : List Json → String
  | [] => ""
  | [x] => pyRepr x
  | x :: rest => pyRepr x ++ ", " ++ pyReprElems rest

def pyReprFields : List (String × Json) → String
  | [] => ""
  | [(k, v)] => "\x27" ++ k ++ "\x27: " ++ pyRepr v
  | (k, v) :: rest => "\x27" ++ k ++ "\x27: " ++ pyRepr v ++ ", " ++ pyReprFields rest

end

/-- Python `str` of a value obtained from `json.loads`, as used by f-string
interpolation: a string interpolates without quotes, every other value
prints as its `repr`. -/
def pyStr : Json → String
  | .str s => s
  | v => pyRepr v

/-- An HTTP response as seen by the client: the status code and the body.
`body = some j` means `response.json()` succeeds and returns `j`;
`body = none` means the body is not parseable JSON, so `response.json()`
raises a JSON decode error. -/
structure Response where
  status_code : Nat
  body : Option Json

/-- The Python exceptions the module can raise.
`apiRequestError` is the module's own `APIRequestError`;
`jsonDecodeError` models the error `response.json()` raises on a non-JSON
body; `httpError` is `requests.HTTPError` from `raise_for_status`;
`keyError` is a failed `dict[...]` access; `validationError` is a pydantic
parse failure; `exn` is a plain `Exception`; `requestException` is a
transport-level `requests.exceptions.RequestException`. -/
inductive PyError where
  | apiRequestError (msg : String)
  | jsonDecodeError
  | httpError (status : Nat) (msg : String)
  | keyError (key : String)
  | validationError
  | exn (msg : String)
  | requestException (msg : String)
deriving DecidableEq

/-- `s` contains `pat` as a contiguous substring. -/
def strContains (s pat : String) : Prop :=
  ∃ a b : List Char, s.data = a ++ pat.data ++ b

theorem strContains_intro (a pat b : String) :
    strContains (a ++ pat ++ b) pat := by
  refine ⟨a.data, b.data, ?_⟩
  simp [String.data_append]

theorem strContains_intro4 (a pat b c : String) :
    strContains (a ++ pat ++ b ++ c) pat := by
  refine ⟨a.data, b.data ++ c.data, ?_⟩
  simp [String.data_append]

/-- Modelled from the spec: the `Image` record of
`agenta.client.api_models` (that file is not under src/).  Per the spec,
an Image is identified by `docker_id` (string) plus a `tags` field
(string). -/
structure Image where
  docker_id : String
  tags : String
deriving DecidableEq

/-- Modelled from the spec: pydantic `Image.parse_obj` over a JSON value
(the `api_models` module is not under src/).  It succeeds when the object
carries string values for `docker_id` and `tags`. -/
def Image.parse_obj (j : Json) : Option Image :=
  match j.lookup "docker_id", j.lookup "tags" with
  | some (.str d), some (.str t) => some ⟨d, t⟩
  | _, _ => none

/-- Modelled from the spec: the `AppVariant` record of
`agenta.client.api_models` (that file is not under src/).  Per the spec,
an AppVariant is identified by `variant_id`, its fields include
`variant_name`, and it carries an associated deployment image (kept here
as the raw JSON record of the image). -/
structure AppVariant where
  variant_id : String
  variant_name : String
  image : Json

/-- Modelled from the spec: constructing an `AppVariant` from one JSON
object, as `AppVariant(**variant)` does (pydantic validation; the
`api_models` module is not under src/). -/
def AppVariant.ofJson (j : Json) : Option AppVariant :=
  match j.lookup "variant_id", j.lookup "variant_name", j.lookup "image" with
  | some (.str vid), some (.str vname), some img => some ⟨vid, vname, img⟩
  | _, _, _ => none

/-- The record `v` agrees field-for-field with the JSON object `j` it was
parsed from. -/
def AppVariant.matches_json (v : AppVariant) (j : Json) : Prop :=
  j.lookup "variant_id" = some (.str v.variant_id) ∧
  j.lookup "variant_name" = some (.str v.variant_name) ∧
  j.lookup "image" = some v.image

/-! ## URL construction (the f-strings of each operation) -/

def get_app_by_name_url (app_name host suffix : String) : String :=
  host ++ "/" ++ suffix ++ "/apps?app_name=" ++ app_name ++ "/"

def create_new_app_url (host suffix : String) : String :=
  host ++ "/" ++ suffix ++ "/apps/"

def add_variant_to_server_url (app_id host suffix : String) : String :=
  host ++ "/" ++ suffix ++ "/apps/" ++ app_id ++ "/variant/from-image/"

def start_variant_url (variant_id host : String) : String :=
  host ++ "/variants/" ++ variant_id ++ "/"

def list_variants_url (app_id host suffix : String) : String :=
  host ++ "/" ++ suffix ++ "/apps/" ++ app_id ++ "/variants/"

def remove_variant_url (variant_id host suffix : String) : String :=
  host ++ "/" ++ suffix ++ "/variants/" ++ variant_id

def update_variant_image_url (variant_id host suffix : String) : String :=
  host ++ "/" ++ suffix ++ "/variants/" ++ variant_id ++ "/image/"

/-- URL of the upload-and-build request, from the source f-string
`.../containers/build_image/?app_id=\x7bapp_id\x7d&&variant_name=\x7bvariant_name\x7d`. -/
def send_docker_tar_url (app_id variant_name host suffix : String) : String :=
  host ++ "/" ++ suffix ++ "/containers/build_image/?app_id=" ++ app_id ++
    "&&variant_name=" ++ variant_name

/-- Modelled from the spec: the path pattern the spec states for the
upload-and-build request,
`/\x7bsuffix\x7d/containers/build_image/?app_id=\x7bid\x7d&variant_name=\x7bname\x7d`
with the two query parameters joined by a single ampersand. -/
def spec_send_docker_tar_url (app_id variant_name host suffix : String) : String :=
  host ++ "/" ++ suffix ++ "/containers/build_image/?app_id=" ++ app_id ++
    "&variant_name=" ++ variant_name

/-! ## Request bodies -/

/-- The `payload` built by `start_variant` (source lines 105-107): start
from `\x7b"action": "START"\x7d` and add the `env_vars` wrapper only when the
optional mapping is truthy (not `None` and non-empty). -/
def start_variant_payload (env_vars : Option (List (String × String))) : Json :=
  let base : List (String × Json) := [("action", .str "START")]
  match env_vars with
  | some l =>
      if l.isEmpty then .obj base
      else .obj (base ++
        [("env_vars", .obj [("env_vars", .obj (l.map (fun kv => (kv.1, .str kv.2))))])])
  | none => .obj base

/-- The `payload` built by `add_variant_to_server` (source lines 68-74). -/
def add_variant_payload (variant_name : String) (image : Image) : Json :=
  .obj [("variant_name", .str variant_name),
        ("docker_id", .str image.docker_id),
        ("tags", .str image.tags),
        ("base_name", .null),
        ("config_name", .null)]

/-- The body of `update_variant_image` (source line 183). -/
def update_variant_image_payload (image : Image) : Json :=
  .obj [("image", .obj [("docker_id", .str image.docker_id),
                        ("tags", .str image.tags)])]

/-! ## The operations

Each operation takes its arguments plus the outcome of the network call:
`net : Except String Response`, where `Except.error e` is a transport-level
failure (`requests.exceptions.RequestException` with text `e`) and
`Except.ok resp` is a received response.  Operations whose source does not
catch `RequestException` re-raise it unchanged as
`PyError.requestException`. -/

/-- `response.json()`: the parsed body, or a JSON decode error. -/
def Response.jsonE (r : Response) : Except PyError Json :=
  match r.body with
  | some j => .ok j
  | none => .error .jsonDecodeError

/-- `get_app_by_name` (source lines 18-35): on a non-200 status raise
`APIRequestError` with the status code and the parsed error body in the
message; on 200 return `response.json()["app_id"]`. -/
def get_app_by_name (app_name host suffix : String)
    (net : Except String Response) : Except PyError Json :=
  let _ := get_app_by_name_url app_name host suffix
  match net with
  | .error e => .error (.requestException e)
  | .ok resp =>
    if resp.status_code ≠ 200 then
      match resp.jsonE with
      | .error err => .error err
      | .ok error_message =>
          .error (.apiRequestError
            ("Request to get app failed with status code " ++
              toString resp.status_code ++ " and error message: " ++
              pyStr error_message ++ "."))
    else
      match resp.jsonE with
      | .error err => .error err
      | .ok j =>
        match j.lookup "app_id" with
        | some v => .ok v
        | none => .error (.keyError "app_id")

/-- `create_new_app` (source lines 38-56): same shape as
`get_app_by_name` with its own message prefix. -/
def create_new_app (app_name host suffix : String)
    (net : Except String Response) : Except PyError Json :=
  let _ := create_new_app_url host suffix
  let _ := Json.obj [("app_name", .str app_name)]
  match net with
  | .error e => .error (.requestException e)
  | .ok resp =>
    if resp.status_code ≠ 200 then
      match resp.jsonE with
      | .error err => .error err
      | .ok error_message =>
          .error (.apiRequestError
            ("Request to create new app failed with status code " ++
              toString resp.status_code ++ " and error message: " ++
              pyStr error_message ++ "."))
    else
      match resp.jsonE with
      | .error err => .error err
      | .ok j =>
        match j.lookup "app_id" with
        | some v => .ok v
        | none => .error (.keyError "app_id")

/-- `add_variant_to_server` (source lines 59-85): posts
`add_variant_payload`; on non-200 raise `APIRequestError`; on 200 return
the raw parsed body. -/
def add_variant_to_server (app_id variant_name : String) (image : Image)
    (host suffix : String) (net : Except String Response) :
    Except PyError Json :=
  let _ := add_variant_to_server_url app_id host suffix
  let _ := add_variant_payload variant_name image
  match net with
  | .error e => .error (.requestException e)
  | .ok resp =>
    if resp.status_code ≠ 200 then
      match resp.jsonE with
      | .error err => .error err
      | .ok error_message =>
          .error (.apiRequestError
            ("Request to app_variant endpoint failed with status code " ++
              toString resp.status_code ++ " and error message: " ++
              pyStr error_message ++ "."))
    else resp.jsonE

/-- `start_variant` (source lines 88-124): the whole body runs inside a
`try` whose handler catches `RequestException` and re-raises it as
`APIRequestError`; a non-200 status raises `APIRequestError` with the
`detail` field of the body (default `"Unknown error"`); on 200 the result
is `response.json().get("uri", "")`. -/
def start_variant (variant_id host : String)
    (env_vars : Option (List (String × String)))
    (net : Except String Response) : Except PyError Json :=
  let _ := start_variant_url variant_id host
  let _ := start_variant_payload env_vars
  match net with
  | .error e =>
      .error (.apiRequestError
        ("An error occurred while making the request: " ++ e))
  | .ok resp =>
    if resp.status_code ≠ 200 then
      match resp.jsonE with
      | .error err => .error err
      | .ok j =>
          let error_message := match j.lookup "detail" with
            | some d => pyStr d
            | none => "Unknown error"
          .error (.apiRequestError
            ("Request to start variant endpoint failed with status code " ++
              toString resp.status_code ++ " and error message: " ++
              error_message ++ "."))
    else
      match resp.jsonE with
      | .error err => .error err
      | .ok j =>
        match j.lookup "uri" with
        | some v => .ok v
        | none => .ok (.str "")

/-- `list_variants` parsing of the 200 body (source line 148): the list
comprehension `[AppVariant(**variant) for variant in app_variants]`, which
stops at the first object pydantic rejects. -/
def parse_variants : List Json → Option (List AppVariant)
  | [] => some []
  | j :: rest =>
    match AppVariant.ofJson j, parse_variants rest with
    | some v, some vs => some (v :: vs)
    | _, _ => none

/-- `list_variants` (source lines 127-148): on non-200 raise
`APIRequestError`; on 200 parse the JSON array element-wise into
`AppVariant` records. -/
def list_variants (app_id host suffix : String)
    (net : Except String Response) : Except PyError (List AppVariant) :=
  let _ := list_variants_url app_id host suffix
  match net with
  | .error e => .error (.requestException e)
  | .ok resp =>
    if resp.status_code ≠ 200 then
      match resp.jsonE with
      | .error err => .error err
      | .ok error_message =>
          .error (.apiRequestError
            ("Request to list_variants endpoint failed with status code " ++
              toString resp.status_code ++ " and error message: " ++
              pyStr error_message ++ "."))
    else
      match resp.jsonE with
      | .error err => .error err
      | .ok j =>
        match j with
        | .arr elems =>
          match parse_variants elems with
          | some vs => .ok vs
          | none => .error .validationError
        | _ => .error .validationError

/-- `remove_variant` (source lines 151-169): on non-200 raise
`APIRequestError` (note: this message has no trailing period in the
source); on 200 return nothing. -/
def remove_variant (variant_id host suffix : String)
    (net : Except String Response) : Except PyError Unit :=
  let _ := remove_variant_url variant_id host suffix
  match net with
  | .error e => .error (.requestException e)
  | .ok resp =>
    if resp.status_code ≠ 200 then
      match resp.jsonE with
      | .error err => .error err
      | .ok error_message =>
          .error (.apiRequestError
            ("Request to remove_variant endpoint failed with status code " ++
              toString resp.status_code ++ " and error message: " ++
              pyStr error_message))
    else .ok ()

/-- `update_variant_image` (source lines 172-190): on non-200 raise
`APIRequestError`; on 200 return nothing. -/
def update_variant_image (variant_id : String) (image : Image)
    (host suffix : String) (net : Except String Response) :
    Except PyError Unit :=
  let _ := update_variant_image_url variant_id host suffix
  let _ := update_variant_image_payload image
  match net with
  | .error e => .error (.requestException e)
  | .ok resp =>
    if resp.status_code ≠ 200 then
      match resp.jsonE with
      | .error err => .error err
      | .ok error_message =>
          .error (.apiRequestError
            ("Request to update app_variant failed with status code " ++
              toString resp.status_code ++ " and error message: " ++
              pyStr error_message ++ "."))
    else .ok ()

/-! ## send_docker_tar -/

/-- `requests.Response.raise_for_status`: raises `HTTPError` exactly for
status codes in 400-499 (client error) and 500-599 (server error); every
other status (1xx, 2xx, 3xx) passes through silently. -/
def raise_for_status (r : Response) : Except PyError Unit :=
  if 400 ≤ r.status_code ∧ r.status_code < 500 then
    .error (.httpError r.status_code
      (toString r.status_code ++ " Client Error"))
  else if 500 ≤ r.status_code ∧ r.status_code < 600 then
    .error (.httpError r.status_code
      (toString r.status_code ++ " Server Error"))
  else .ok ()

/-- The diagnostic message `send_docker_tar` builds for a 500 response
(source lines 205-209), with `response_error` the parsed body. -/
def docker_tar_500_msg (response_error : Json) : String :=
  "Serving the variant failed.\n" ++
  "Log: " ++ pyStr response_error ++ "\n" ++
  "Here\x27s how you may be able to solve the issue:\n" ++
  "- First, make sure that the requirements.txt file has all the dependencies that you need.\n" ++
  "- Second, check the Docker logs for the backend image to see the error when running the Docker container."

/-- Post-response processing of `send_docker_tar` (source lines 203-214):
status exactly 500 raises a plain `Exception` carrying
`docker_tar_500_msg`; otherwise `raise_for_status` runs, and a surviving
response has its body parsed as an `Image`. -/
def send_docker_tar_resp (resp : Response) : Except PyError Image :=
  if resp.status_code = 500 then
    match resp.jsonE with
    | .error err => .error err
    | .ok response_error => .error (.exn (docker_tar_500_msg response_error))
  else
    match raise_for_status resp with
    | .error err => .error err
    | .ok () =>
      match resp.jsonE with
      | .error err => .error err
      | .ok j =>
        match Image.parse_obj j with
        | some image => .ok image
        | none => .error .validationError

/-- File-handle and request events of `send_docker_tar`, used to model the
`with tar_path.open("rb") as tar_file:` block. -/
inductive FileEvent where
  | openTar
  | postRequest
  | closeTar
deriving DecidableEq

/-- The `with` statement around an action: the handle is opened before the
body and closed when the body exits, normally or by exception (the action
outcome is returned either way, so an exception re-raises after the
close). -/
def with_open_tar {α : Type} (body : List FileEvent × α) :
    List FileEvent × α :=
  (FileEvent.openTar :: body.1 ++ [FileEvent.closeTar], body.2)

/-- The network call inside the `with` block: posts the multipart request
(field `tar_file` streaming the open handle) and yields the transport
outcome. -/
def post_build_image (net : Except String Response) :
    List FileEvent × Except String Response :=
  ([FileEvent.postRequest], net)

/-- `send_docker_tar` (source lines 193-214), with its file-event trace:
the tar file is opened, the request posted inside the `with` block, the
handle closed, and only then is the response examined (or the transport
exception re-raised). -/
def send_docker_tar (app_id variant_name host suffix : String)
    (net : Except String Response) :
    Except PyError Image × List FileEvent :=
  let _ := send_docker_tar_url app_id variant_name host suffix
  let traced := with_open_tar (post_build_image net)
  match traced.2 with
  | .error e => (.error (.requestException e), traced.1)
  | .ok resp => (send_docker_tar_resp resp, traced.1)

/-! ## String containment lemmas -/

theorem strContains_self (pat : String) : strContains pat pat :=
  ⟨[], [], by simp⟩

theorem strContains_left (s t pat : String) (h : strContains s pat) :
    strContains (s ++ t) pat := by
  obtain ⟨a, b, hab⟩ := h
  exact ⟨a, b ++ t.data, by simp [String.data_append, hab]⟩

theorem strContains_right (s t pat : String) (h : strContains t pat) :
    strContains (s ++ t) pat := by
  obtain ⟨a, b, hab⟩ := h
  exact ⟨s.data ++ a, b, by simp [String.data_append, hab]⟩

/-- The second of five concatenated pieces is contained in the whole. -/
theorem strContains_msg5_status (p ts mid q d : String) :
    strContains (p ++ ts ++ mid ++ q ++ d) ts :=
  strContains_left _ _ _ (strContains_left _ _ _ (strContains_left _ _ _
    (strContains_right _ _ _ (strContains_self ts))))

/-- The fourth of five concatenated pieces is contained in the whole. -/
theorem strContains_msg5_payload (p ts mid q d : String) :
    strContains (p ++ ts ++ mid ++ q ++ d) q :=
  strContains_left _ _ _ (strContains_right _ _ _ (strContains_self q))

/-- The second of four concatenated pieces is contained in the whole. -/
theorem strContains_msg4_status (p ts mid q : String) :
    strContains (p ++ ts ++ mid ++ q) ts :=
  strContains_left _ _ _ (strContains_left _ _ _
    (strContains_right _ _ _ (strContains_self ts)))

/-- The fourth of four concatenated pieces is contained in the whole. -/
theorem strContains_msg4_payload (p ts mid q : String) :
    strContains (p ++ ts ++ mid ++ q) q :=
  strContains_right _ _ _ (strContains_self q)

/-! ## Parsing lemmas for list_variants -/

/-- A record built by `AppVariant.ofJson` agrees field-for-field with the
JSON object it was parsed from. -/
theorem AppVariant.ofJson_matches_json (j : Json) (v : AppVariant)
    (h : AppVariant.ofJson j = some v) : v.matches_json j := by
  unfold AppVariant.ofJson at h
  split at h
  next vid vname img h1 h2 h3 =>
    injection h with h
    subst h
    exact ⟨h1, h2, h3⟩
  next => cases h

theorem parse_variants_length (elems : List Json) (vs : List AppVariant)
    (h : parse_variants elems = some vs) : vs.length = elems.length := by
  induction elems generalizing vs with
  | nil =>
    unfold parse_variants at h
    injection h with h
    subst h
    rfl
  | cons j rest ih =>
    unfold parse_variants at h
    split at h
    next v vs0 h1 h2 =>
      injection h with h
      subst h
      simp [ih vs0 h2]
    next => cases h

theorem parse_variants_get (elems : List Json) (vs : List AppVariant)
    (h : parse_variants elems = some vs) :
    ∀ i (hv : i < vs.length) (he : i < elems.length),
      (vs.get ⟨i, hv⟩).matches_json (elems.get ⟨i, he⟩) := by
  induction elems generalizing vs with
  | nil =>
    intro i _ he
    exact absurd he (Nat.not_lt_zero i)
  | cons j rest ih =>
    unfold parse_variants at h
    split at h
    next v vs0 h1 h2 =>
      injection h with h
      subst h
      intro i hv he
      cases i with
      | zero => exact AppVariant.ofJson_matches_json j v h1
      | succ n =>
        exact ih vs0 h2 n (Nat.lt_of_succ_lt_succ hv) (Nat.lt_of_succ_lt_succ he)
    next => cases h

/-! ## Claim theorems -/

/-- Claim C4: for the start-variant operation, when no environment-variable
mapping is supplied the request body is exactly the object with the single
key `action` mapped to `"START"`, and when the mapping maps `FOO` to `bar`
the body is exactly that object extended with
`env_vars = (env_vars = (FOO = bar))` (the doubly nested wrapper). -/
theorem start_variant_payload_shape :
    start_variant_payload none = .obj [("action", .str "START")] ∧
    start_variant_payload (some [("FOO", "bar")]) =
      .obj [("action", .str "START"),
            ("env_vars", .obj [("env_vars", .obj [("FOO", .str "bar")])])] :=
  ⟨rfl, rfl⟩

/-- Claim C10: passing an empty environment-variable mapping to the
start-variant operation behaves identically to passing no mapping at all —
the request body contains only the `action` key and no `env_vars` key —
because the source tests the mapping for truthiness (`if env_vars:`)
rather than for `None`. -/
theorem start_variant_empty_env_like_none :
    start_variant_payload (some []) = start_variant_payload none ∧
    start_variant_payload (some []) = .obj [("action", .str "START")] ∧
    (∀ (variant_id host : String) (net : Except String Response),
      start_variant variant_id host (some []) net =
        start_variant variant_id host none net) :=
  ⟨rfl, rfl, fun _ _ _ => rfl⟩

/-- Claim C9: in the upload-and-build operation the tar-archive handle is
opened, the request posted while it is open, and the handle closed, on
every exit path alike — transport exception (`net = .error e`), HTTP-error
status, and success (both in `net = .ok resp`) — because the source wraps
the request in a `with` block. -/
theorem send_docker_tar_file_closed_on_all_paths
    (app_id variant_name host suffix : String)
    (net : Except String Response) :
    (send_docker_tar app_id variant_name host suffix net).2 =
      [FileEvent.openTar, FileEvent.postRequest, FileEvent.closeTar] := by
  cases net <;> rfl

/-- Claim C7 counterexample: the upload-and-build URL built by the source
differs from the path pattern stated in the spec (single ampersand between
the two query parameters); the source joins them with a double ampersand. -/
theorem send_docker_tar_url_single_amp_cex :
    send_docker_tar_url "a1" "v1" "http://h" "api" ≠
      spec_send_docker_tar_url "a1" "v1" "http://h" "api" ∧
    send_docker_tar_url "a1" "v1" "http://h" "api" =
      "http://h/api/containers/build_image/?app_id=a1&&variant_name=v1" :=
  ⟨by decide, rfl⟩

/-- Claim C7 (amended): the upload-and-build request URL follows the
pattern `/suffix/containers/build_image/?app_id=id&&variant_name=name` —
the two query parameters are joined by a double ampersand, not a single
one. -/
theorem send_docker_tar_url_double_amp
    (app_id variant_name host suffix : String) :
    strContains (send_docker_tar_url app_id variant_name host suffix)
      "&&variant_name=" ∧
    send_docker_tar_url app_id variant_name host suffix =
      host ++ "/" ++ suffix ++ "/containers/build_image/?app_id=" ++ app_id ++
        "&&variant_name=" ++ variant_name := by
  constructor
  · unfold send_docker_tar_url
    exact strContains_left _ _ _ (strContains_right _ _ _ (strContains_self _))
  · rfl

/-- Claim C3: for the start-variant operation a transport-level failure is
caught and re-raised as `APIRequestError`, the same error kind raised for
a non-200 HTTP response, so the caller cannot distinguish the two failure
classes by error kind. -/
theorem start_variant_single_error_kind :
    (∀ (variant_id host e : String) (env_vars : Option (List (String × String))),
      ∃ m, start_variant variant_id host env_vars (.error e) =
        .error (.apiRequestError m)) ∧
    (∀ (variant_id host : String) (env_vars : Option (List (String × String)))
        (status : Nat) (j : Json), status ≠ 200 →
      ∃ m, start_variant variant_id host env_vars (.ok ⟨status, some j⟩) =
        .error (.apiRequestError m)) := by
  constructor
  · intro variant_id host e env_vars
    exact ⟨"An error occurred while making the request: " ++ e, rfl⟩
  · intro variant_id host env_vars status j h
    refine ⟨"Request to start variant endpoint failed with status code " ++
      toString status ++ " and error message: " ++
      (match j.lookup "detail" with
        | some d => pyStr d
        | none => "Unknown error") ++ ".", ?_⟩
    simp [start_variant, Response.jsonE, h]

/-- Claim C3 witness: a connection-refused transport failure and a 500
response both surface as `APIRequestError` from `start_variant`. -/
theorem start_variant_single_error_kind_witness :
    (∃ m, start_variant "v1" "http://h" none (.error "Connection refused") =
      .error (.apiRequestError m)) ∧
    (∃ m, start_variant "v1" "http://h" none
        (.ok ⟨500, some (.obj [("detail", .str "boom")])⟩) =
      .error (.apiRequestError m)) :=
  ⟨start_variant_single_error_kind.1 "v1" "http://h" "Connection refused" none,
   start_variant_single_error_kind.2 "v1" "http://h" none 500
     (.obj [("detail", .str "boom")]) (by decide)⟩

/-- Claim C5: when a 200 response carries a JSON array whose N elements
all validate as variant records, `list_variants` returns exactly N
`AppVariant` records, in the same order, each agreeing field-for-field
with its input object. -/
theorem list_variants_roundtrip (app_id host suffix : String)
    (elems : List Json) (vs : List AppVariant)
    (h : parse_variants elems = some vs) :
    list_variants app_id host suffix (.ok ⟨200, some (.arr elems)⟩) = .ok vs ∧
    vs.length = elems.length ∧
    ∀ i (hv : i < vs.length) (he : i < elems.length),
      (vs.get ⟨i, hv⟩).matches_json (elems.get ⟨i, he⟩) := by
  refine ⟨?_, parse_variants_length elems vs h, parse_variants_get elems vs h⟩
  simp [list_variants, Response.jsonE, h]

/-- Claim C5 witness: a concrete two-element variant array parses to the
two expected records, in order. -/
theorem list_variants_roundtrip_witness :
    list_variants "a1" "http://h" "api"
      (.ok ⟨200, some (.arr
        [.obj [("variant_id", .str "v1"), ("variant_name", .str "n1"),
               ("image", .obj [("docker_id", .str "d1"), ("tags", .str "t1")])],
         .obj [("variant_id", .str "v2"), ("variant_name", .str "n2"),
               ("image", .str "img2")]])⟩) =
      .ok [⟨"v1", "n1", .obj [("docker_id", .str "d1"), ("tags", .str "t1")]⟩,
           ⟨"v2", "n2", .str "img2"⟩] :=
  (list_variants_roundtrip "a1" "http://h" "api"
    [.obj [("variant_id", .str "v1"), ("variant_name", .str "n1"),
           ("image", .obj [("docker_id", .str "d1"), ("tags", .str "t1")])],
     .obj [("variant_id", .str "v2"), ("variant_name", .str "n2"),
           ("image", .str "img2")]]
    [⟨"v1", "n1", .obj [("docker_id", .str "d1"), ("tags", .str "t1")]⟩,
     ⟨"v2", "n2", .str "img2"⟩] rfl).1

/-- Claim C2 counterexample: the claim fails in two ways. A 500 response
whose body is not parseable JSON raises the JSON decode error from
`response.json()`, not an error mentioning the diagnostic text; and a
non-2xx status outside 400-599 (here 304, with a valid Image body) raises
nothing at all — `raise_for_status` only fires on 4xx and 5xx — so the
operation returns an Image instead of a generic HTTP-layer error. -/
theorem send_docker_tar_non_2xx_cex :
    send_docker_tar_resp ⟨500, none⟩ = .error .jsonDecodeError ∧
    (∀ m, send_docker_tar_resp ⟨500, none⟩ ≠ .error (.exn m)) ∧
    send_docker_tar_resp
      ⟨304, some (.obj [("docker_id", .str "d1"), ("tags", .str "t1")])⟩ =
      .ok ⟨"d1", "t1"⟩ := by
  refine ⟨rfl, ?_, rfl⟩
  intro m hm
  rw [show send_docker_tar_resp ⟨500, none⟩ = .error .jsonDecodeError from rfl]
    at hm
  simp at hm

/-- Claim C2 (amended): in the upload-and-build operation a response with
status exactly 500 and a JSON-parseable body raises an error whose message
contains the literal substrings "Serving the variant failed" and "Docker
logs"; any other status in 400-599 raises the generic `HTTPError` produced
by `raise_for_status` in the HTTP layer itself, independent of the body;
statuses outside 400-599 raise neither. -/
theorem send_docker_tar_status_branches :
    (∀ j : Json,
      send_docker_tar_resp ⟨500, some j⟩ =
        .error (.exn (docker_tar_500_msg j)) ∧
      strContains (docker_tar_500_msg j) "Serving the variant failed" ∧
      strContains (docker_tar_500_msg j) "Docker logs") ∧
    (∀ (status : Nat) (body : Option Json),
      400 ≤ status → status < 600 → status ≠ 500 →
      ∃ m, send_docker_tar_resp ⟨status, body⟩ =
        .error (.httpError status m)) := by
  constructor
  · intro j
    refine ⟨rfl, ?_, ?_⟩
    · unfold docker_tar_500_msg
      refine strContains_left _ _ _ (strContains_left _ _ _
        (strContains_left _ _ _ (strContains_left _ _ _
          (strContains_left _ _ _ (strContains_left _ _ _ ?_)))))
      rw [show ("Serving the variant failed.\n" : String) =
        "Serving the variant failed" ++ ".\n" from rfl]
      exact strContains_left _ _ _ (strContains_self _)
    · unfold docker_tar_500_msg
      refine strContains_right _ _ _ ?_
      rw [show ("- Second, check the Docker logs for the backend image to see the error when running the Docker container." : String) =
        "- Second, check the " ++ "Docker logs" ++
          " for the backend image to see the error when running the Docker container." from rfl]
      exact strContains_left _ _ _ (strContains_right _ _ _ (strContains_self _))
  · intro status body h4 h6 h5
    unfold send_docker_tar_resp raise_for_status
    dsimp only
    rw [if_neg h5]
    by_cases hc : status < 500
    · rw [if_pos ⟨h4, hc⟩]
      exact ⟨_, rfl⟩
    · rw [if_neg (fun hh => hc hh.2), if_pos ⟨by omega, h6⟩]
      exact ⟨_, rfl⟩

/-- Claim C2 witness: the 500 branch at a concrete JSON body and the
generic branch at status 404. -/
theorem send_docker_tar_status_branches_witness :
    (send_docker_tar_resp ⟨500, some (.obj [("detail", .str "boom")])⟩ =
      .error (.exn (docker_tar_500_msg (.obj [("detail", .str "boom")]))) ∧
     strContains (docker_tar_500_msg (.obj [("detail", .str "boom")]))
       "Serving the variant failed" ∧
     strContains (docker_tar_500_msg (.obj [("detail", .str "boom")]))
       "Docker logs") ∧
    (∃ m, send_docker_tar_resp ⟨404, none⟩ = .error (.httpError 404 m)) :=
  ⟨send_docker_tar_status_branches.1 (.obj [("detail", .str "boom")]),
   send_docker_tar_status_branches.2 404 none (by decide) (by decide)
     (by decide)⟩

/-- Claim C8: a 200 response to the upload-and-build operation whose body
is a JSON object with string fields `docker_id` and `tags` returns an
Image record with exactly those two values. -/
theorem send_docker_tar_200_returns_image
    (app_id variant_name host suffix d t : String) (j : Json)
    (hd : j.lookup "docker_id" = some (.str d))
    (ht : j.lookup "tags" = some (.str t)) :
    (send_docker_tar app_id variant_name host suffix (.ok ⟨200, some j⟩)).1 =
      .ok ⟨d, t⟩ := by
  simp [send_docker_tar, with_open_tar, post_build_image, send_docker_tar_resp,
    raise_for_status, Response.jsonE, Image.parse_obj, hd, ht]

/-- Claim C8 witness: a concrete valid Image body round-trips through the
upload-and-build operation. -/
theorem send_docker_tar_200_returns_image_witness :
    (send_docker_tar "a1" "v1" "http://h" "api"
      (.ok ⟨200, some (.obj [("docker_id", .str "sha256:abc"),
                             ("tags", .str "agenta/app:latest")])⟩)).1 =
      .ok ⟨"sha256:abc", "agenta/app:latest"⟩ :=
  send_docker_tar_200_returns_image "a1" "v1" "http://h" "api"
    "sha256:abc" "agenta/app:latest"
    (.obj [("docker_id", .str "sha256:abc"), ("tags", .str "agenta/app:latest")])
    rfl rfl

/-- Claim C1 counterexample: the upload-and-build operation never raises
`APIRequestError` on a non-success status — a 500 raises a plain
`Exception` with the build diagnostic, and a 404 raises the generic
`HTTPError` from `raise_for_status` — so the claim fails for this
operation. -/
theorem send_docker_tar_error_kind_cex :
    (send_docker_tar "a1" "v1" "http://h" "api"
        (.ok ⟨500, some (.obj [])⟩)).1 =
      .error (.exn (docker_tar_500_msg (.obj []))) ∧
    (∀ m, (send_docker_tar "a1" "v1" "http://h" "api"
        (.ok ⟨500, some (.obj [])⟩)).1 ≠ .error (.apiRequestError m)) ∧
    (send_docker_tar "a1" "v1" "http://h" "api"
        (.ok ⟨404, some (.obj [])⟩)).1 =
      .error (.httpError 404 "404 Client Error") ∧
    (∀ m, (send_docker_tar "a1" "v1" "http://h" "api"
        (.ok ⟨404, some (.obj [])⟩)).1 ≠ .error (.apiRequestError m)) := by
  refine ⟨rfl, ?_, rfl, ?_⟩
  · intro m hm
    rw [show (send_docker_tar "a1" "v1" "http://h" "api"
        (.ok ⟨500, some (.obj [])⟩)).1 =
      .error (.exn (docker_tar_500_msg (.obj []))) from rfl] at hm
    simp at hm
  · intro m hm
    rw [show (send_docker_tar "a1" "v1" "http://h" "api"
        (.ok ⟨404, some (.obj [])⟩)).1 =
      .error (.httpError 404 "404 Client Error") from rfl] at hm
    simp at hm

/-- Claim C1 (amended): for every operation except the upload-and-build
one, a response with a non-200 status and a JSON-parseable body raises
`APIRequestError` with a message containing the numeric status code and
the rendering of the parsed error payload (for the start-variant
operation, the rendering of its `detail` field, defaulting to "Unknown
error"). -/
theorem non_success_raises_api_request_error
    (status : Nat) (j : Json) (h : status ≠ 200)
    (app_name app_id variant_id variant_name host suffix : String)
    (image : Image) (env_vars : Option (List (String × String))) :
    (∃ m, get_app_by_name app_name host suffix (.ok ⟨status, some j⟩) =
        .error (.apiRequestError m) ∧
      strContains m (toString status) ∧ strContains m (pyStr j)) ∧
    (∃ m, create_new_app app_name host suffix (.ok ⟨status, some j⟩) =
        .error (.apiRequestError m) ∧
      strContains m (toString status) ∧ strContains m (pyStr j)) ∧
    (∃ m, add_variant_to_server app_id variant_name image host suffix
          (.ok ⟨status, some j⟩) =
        .error (.apiRequestError m) ∧
      strContains m (toString status) ∧ strContains m (pyStr j)) ∧
    (∃ m, start_variant variant_id host env_vars (.ok ⟨status, some j⟩) =
        .error (.apiRequestError m) ∧
      strContains m (toString status) ∧
      strContains m (match j.lookup "detail" with
        | some d => pyStr d
        | none => "Unknown error")) ∧
    (∃ m, list_variants app_id host suffix (.ok ⟨status, some j⟩) =
        .error (.apiRequestError m) ∧
      strContains m (toString status) ∧ strContains m (pyStr j)) ∧
    (∃ m, remove_variant variant_id host suffix (.ok ⟨status, some j⟩) =
        .error (.apiRequestError m) ∧
      strContains m (toString status) ∧ strContains m (pyStr j)) ∧
    (∃ m, update_variant_image variant_id image host suffix
          (.ok ⟨status, some j⟩) =
        .error (.apiRequestError m) ∧
      strContains m (toString status) ∧ strContains m (pyStr j)) := by
  refine
    ⟨⟨"Request to get app failed with status code " ++ toString status ++
        " and error message: " ++ pyStr j ++ ".",
      by simp [get_app_by_name, Response.jsonE, h],
      strContains_msg5_status _ _ _ _ _, strContains_msg5_payload _ _ _ _ _⟩,
     ⟨"Request to create new app failed with status code " ++
        toString status ++ " and error message: " ++ pyStr j ++ ".",
      by simp [create_new_app, Response.jsonE, h],
      strContains_msg5_status _ _ _ _ _, strContains_msg5_payload _ _ _ _ _⟩,
     ⟨"Request to app_variant endpoint failed with status code " ++
        toString status ++ " and error message: " ++ pyStr j ++ ".",
      by simp [add_variant_to_server, Response.jsonE, h],
      strContains_msg5_status _ _ _ _ _, strContains_msg5_payload _ _ _ _ _⟩,
     ⟨"Request to start variant endpoint failed with status code " ++
        toString status ++ " and error message: " ++
        (match j.lookup "detail" with
          | some d => pyStr d
          | none => "Unknown error") ++ ".",
      by simp [start_variant, Response.jsonE, h],
      strContains_msg5_status _ _ _ _ _, strContains_msg5_payload _ _ _ _ _⟩,
     ⟨"Request to list_variants endpoint failed with status code " ++
        toString status ++ " and error message: " ++ pyStr j ++ ".",
      by simp [list_variants, Response.jsonE, h],
      strContains_msg5_status _ _ _ _ _, strContains_msg5_payload _ _ _ _ _⟩,
     ⟨"Request to remove_variant endpoint failed with status code " ++
        toString status ++ " and error message: " ++ pyStr j,
      by simp [remove_variant, Response.jsonE, h],
      strContains_msg4_status _ _ _ _, strContains_msg4_payload _ _ _ _⟩,
     ⟨"Request to update app_variant failed with status code " ++
        toString status ++ " and error message: " ++ pyStr j ++ ".",
      by simp [update_variant_image, Response.jsonE, h],
      strContains_msg5_status _ _ _ _ _, strContains_msg5_payload _ _ _ _ _⟩⟩

/-- Claim C1 witness: the seven JSON-raising operations at status 400 with
body carrying detail "duplicate name" all raise `APIRequestError` whose
message contains "400" and the payload rendering. -/
theorem non_success_raises_api_request_error_witness :
    (∃ m, get_app_by_name "demo" "http://h" "api"
        (.ok ⟨400, some (.obj [("detail", .str "duplicate name")])⟩) =
        .error (.apiRequestError m) ∧
      strContains m (toString 400) ∧
      strContains m (pyStr (.obj [("detail", .str "duplicate name")]))) ∧
    (∃ m, create_new_app "demo" "http://h" "api"
        (.ok ⟨400, some (.obj [("detail", .str "duplicate name")])⟩) =
        .error (.apiRequestError m) ∧
      strContains m (toString 400) ∧
      strContains m (pyStr (.obj [("detail", .str "duplicate name")]))) ∧
    (∃ m, add_variant_to_server "a1" "v1" ⟨"d1", "t1"⟩ "http://h" "api"
        (.ok ⟨400, some (.obj [("detail", .str "duplicate name")])⟩) =
        .error (.apiRequestError m) ∧
      strContains m (toString 400) ∧
      strContains m (pyStr (.obj [("detail", .str "duplicate name")]))) ∧
    (∃ m, start_variant "vid1" "http://h" none
        (.ok ⟨400, some (.obj [("detail", .str "duplicate name")])⟩) =
        .error (.apiRequestError m) ∧
      strContains m (toString 400) ∧
      strContains m
        (match (Json.obj [("detail", .str "duplicate name")]).lookup "detail" with
          | some d => pyStr d
          | none => "Unknown error")) ∧
    (∃ m, list_variants "a1" "http://h" "api"
        (.ok ⟨400, some (.obj [("detail", .str "duplicate name")])⟩) =
        .error (.apiRequestError m) ∧
      strContains m (toString 400) ∧
      strContains m (pyStr (.obj [("detail", .str "duplicate name")]))) ∧
    (∃ m, remove_variant "vid1" "http://h" "api"
        (.ok ⟨400, some (.obj [("detail", .str "duplicate name")])⟩) =
        .error (.apiRequestError m) ∧
      strContains m (toString 400) ∧
      strContains m (pyStr (.obj [("detail", .str "duplicate name")]))) ∧
    (∃ m, update_variant_image "vid1" ⟨"d1", "t1"⟩ "http://h" "api"
        (.ok ⟨400, some (.obj [("detail", .str "duplicate name")])⟩) =
        .error (.apiRequestError m) ∧
      strContains m (toString 400) ∧
      strContains m (pyStr (.obj [("detail", .str "duplicate name")]))) :=
  non_success_raises_api_request_error 400
    (.obj [("detail", .str "duplicate name")]) (by decide)
    "demo" "a1" "vid1" "v1" "http://h" "api" ⟨"d1", "t1"⟩ none

/-- Claim C6 counterexample: a non-success response whose body is not
parseable JSON does not yield `APIRequestError` — the JSON decode error
raised by `response.json()` propagates instead. -/
theorem non_json_error_body_cex :
    get_app_by_name "demo" "http://h" "api" (.ok ⟨400, none⟩) =
      .error .jsonDecodeError ∧
    (∀ m, get_app_by_name "demo" "http://h" "api" (.ok ⟨400, none⟩) ≠
      .error (.apiRequestError m)) := by
  refine ⟨rfl, ?_⟩
  intro m hm
  rw [show get_app_by_name "demo" "http://h" "api" (.ok ⟨400, none⟩) =
    .error .jsonDecodeError from rfl] at hm
  simp at hm

/-- Claim C6 (amended): on a non-200 status the error raised carries the
server payload parsed as JSON when the body is parseable JSON (embedded,
rendered, in the `APIRequestError` message); when the body is not
parseable JSON the JSON decode error from `response.json()` propagates
instead of an `APIRequestError` (shown for the two operations the claim
cites, lookup-app-by-name and list-variants). -/
theorem error_payload_json_or_decode_error
    (status : Nat) (h : status ≠ 200) (j : Json)
    (app_name app_id host suffix : String) :
    (get_app_by_name app_name host suffix (.ok ⟨status, some j⟩) =
      .error (.apiRequestError
        ("Request to get app failed with status code " ++ toString status ++
          " and error message: " ++ pyStr j ++ "."))) ∧
    get_app_by_name app_name host suffix (.ok ⟨status, none⟩) =
      .error .jsonDecodeError ∧
    (list_variants app_id host suffix (.ok ⟨status, some j⟩) =
      .error (.apiRequestError
        ("Request to list_variants endpoint failed with status code " ++
          toString status ++ " and error message: " ++ pyStr j ++ "."))) ∧
    list_variants app_id host suffix (.ok ⟨status, none⟩) =
      .error .jsonDecodeError := by
  refine ⟨?_, ?_, ?_, ?_⟩ <;>
    simp [get_app_by_name, list_variants, Response.jsonE, h]

/-- Claim C6 witness: the amended behaviour at status 404 with a JSON
body carrying detail "oops" and with a non-JSON body. -/
theorem error_payload_json_or_decode_error_witness :
    (get_app_by_name "demo" "http://h" "api"
        (.ok ⟨404, some (.obj [("detail", .str "oops")])⟩) =
      .error (.apiRequestError
        ("Request to get app failed with status code " ++ toString 404 ++
          " and error message: " ++
          pyStr (.obj [("detail", .str "oops")]) ++ "."))) ∧
    get_app_by_name "demo" "http://h" "api" (.ok ⟨404, none⟩) =
      .error .jsonDecodeError ∧
    (list_variants "a1" "http://h" "api"
        (.ok ⟨404, some (.obj [("detail", .str "oops")])⟩) =
      .error (.apiRequestError
        ("Request to list_variants endpoint failed with status code " ++
          toString 404 ++ " and error message: " ++
          pyStr (.obj [("detail", .str "oops")]) ++ "."))) ∧
    list_variants "a1" "http://h" "api" (.ok ⟨404, none⟩) =
      .error .jsonDecodeError :=
  error_payload_json_or_decode_error 404 (by decide)
    (.obj [("detail", .str "oops")]) "demo" "a1" "http://h" "api"
